import Mathlib

/-!
Shallow embedding of `src/preview_builder.py` (yingkitw/preview_builder).

Conventions:
  * Python floats (durations, frame rates, linspace values) are modelled as
    exact rationals (`ℚ`); Python ints as `ℤ`/`ℕ`.
  * The external world (filesystem, ffprobe/ffmpeg processes, cv2 decoding)
    is an explicit oracle structure `Env`; observable side effects (directory
    creation, process spawns, file writes, warnings) are an `Event` trace.
  * A Python exception that escapes a function is `Except.error` carrying the
    exception name.
-/

/- ### Device resolution table (preview_builder.py lines 12-20) -/

/-- Source line 12: `self.iphone_video_resolution = (886, 1920)`. -/
def iphone_video_resolution : ℕ × ℕ := (886, 1920)

/-- Source line 13: `self.ipad_video_resolution = (1200, 1600)`. -/
def ipad_video_resolution : ℕ × ℕ := (1200, 1600)

/-- Source line 16: `self.iphone_screenshot_resolution = (1320, 2868)`. -/
def iphone_screenshot_resolution : ℕ × ℕ := (1320, 2868)

/-- Source line 17: `self.ipad_screenshot_resolution = (2064, 2752)`. -/
def ipad_screenshot_resolution : ℕ × ℕ := (2064, 2752)

/-- Source line 19: `self.required_duration = 30`. -/
def required_duration : ℚ := 30

/-- Source line 20: `self.screenshot_count = 6`. -/
def screenshot_count : ℕ := 6

/-- The Python method `str.lower()`, modelled character-wise (the identifiers and
extensions compared in the source are ASCII). -/
def strLower (s : String) : String := String.mk (s.toList.map Char.toLower)

/-- Source lines 44-47: preview resolution selection — when the lowercased
device type equals the string iphone pick the iPhone pair, else (any other
string, not only the string ipad) the iPad pair. -/
def previewResolution (device_type : String) : ℕ × ℕ :=
  if strLower device_type = "iphone" then iphone_video_resolution else ipad_video_resolution

/-- Source lines 105-108: screenshot resolution selection, same shape as
`previewResolution` but over the screenshot resolution table. -/
def screenshotResolution (device_type : String) : ℕ × ℕ :=
  if strLower device_type = "iphone" then iphone_screenshot_resolution
  else ipad_screenshot_resolution

/- ### Loop planner (preview_builder.py lines 56-57) -/

/-- The ceiling of a rational, computed from `Rat.floor` (it agrees with
the Mathlib `⌈q⌉`, see `ratCeil_eq` below). -/
def ratCeil (q : ℚ) : ℤ := -(Rat.floor (-q))

/-- Source lines 56-57: `max(1, int(np.ceil(target / duration)))`.
In Python, `target / 0.0` raises `ZeroDivisionError`; for a nonzero duration
`np.ceil` of the rational quotient is exact and `int(...)` of an
integer-valued float is exact, so the result is `max 1 ⌈target/duration⌉`. -/
def plan (target_duration source_duration : ℚ) : Except String ℤ :=
  if source_duration = 0 then .error "ZeroDivisionError"
  else .ok (max 1 (ratCeil (target_duration / source_duration)))

/-- Source lines 56-57 in program order: the video loop count is computed
first (line 56), then the audio loop count (line 57), each by the same
formula `plan required_duration`. -/
def processLoopCounts (video_duration audio_duration : ℚ) : Except String (ℤ × ℤ) := do
  let v ← plan required_duration video_duration
  let a ← plan required_duration audio_duration
  .ok (v, a)

/- ### Screenshot frame sampling (preview_builder.py line 112) -/

/-- Embedding of `np.linspace(0, stop, num)` over exact rationals: values
`i * (stop / (num - 1))` for `i = 0..num-1`.  numpy exact-endpoint
correction is the identity over `ℚ` (at `i = num-1` the value is exactly
`stop`), and for `num = 1` numpy returns `[start] = [0]`, which the formula
also yields since `0 * x = 0` (the Lean convention `q / 0 = 0` makes the `num = 1`
division benign). -/
def linspace (stop : ℚ) (num : ℕ) : List ℚ :=
  (List.range num).map (fun i : ℕ => (i : ℚ) * (stop / ((num : ℚ) - 1)))

/-- The numpy `dtype=int` cast truncates each float toward zero. -/
def ratTrunc (q : ℚ) : ℤ := if 0 ≤ q then Rat.floor q else ratCeil q

/-- Source line 112:
`np.linspace(0, total_frames - 1, N, dtype=int)` — the sampled frame
positions.  `total_frames - 1` is computed in Python int arithmetic,
modelled by `(total_frames : ℚ) - 1`. -/
def frame_positions (total_frames : ℕ) (N : ℕ) : List ℤ :=
  (linspace ((total_frames : ℚ) - 1) N).map ratTrunc

/- ### Screenshot capture loop (preview_builder.py lines 114-125) -/

/-- Source lines 114-125: iterate over the sampled positions with a running
counter `c` (initially 0); at each position where `cap.read()` succeeds
(`ok p = true`) write a file numbered `c + 1` and increment the counter, at
a failed position do nothing.  Returns the (frame position, file number)
pairs actually written, in capture order. -/
def captureLoop (ok : ℤ → Bool) : List ℤ → ℕ → List (ℤ × ℕ)
  | [], _ => []
  | p :: ps, c =>
    if ok p then (p, c + 1) :: captureLoop ok ps (c + 1)
    else captureLoop ok ps c

/- ### Command construction (preview_builder.py lines 26-32 and 63-84) -/

/-- Source line 69: the filter expression
`scale=WIDTH:HEIGHT,pad=WIDTH:HEIGHT:0:0`. -/
def vfFilter (w h : ℕ) : String :=
  "scale=" ++ toString w ++ ":" ++ toString h ++
  ",pad=" ++ toString w ++ ":" ++ toString h ++ ":0:0"

/-- Source lines 26-32: the ffprobe invocation for the audio duration. -/
def ffprobe_cmd (audio_path : String) : List String :=
  ["ffprobe", "-v", "error", "-show_entries", "format=duration", "-of", "json", audio_path]

/-- Source lines 63-84: the ffmpeg invocation.  `str(self.required_duration)`
is `"30"` (line 70); all codec/bitrate arguments are string literals. -/
def ffmpeg_cmd (video_loops audio_loops : ℤ) (input_video audio_file : String)
    (w h : ℕ) (output_video : String) : List String :=
  ["ffmpeg", "-y",
   "-stream_loop", toString video_loops,
   "-i", input_video,
   "-stream_loop", toString audio_loops,
   "-i", audio_file,
   "-vf", vfFilter w h,
   "-t", "30",
   "-r", "30",
   "-c:v", "libx264",
   "-profile:v", "high",
   "-level:v", "4.0",
   "-b:v", "11M",
   "-maxrate", "220M",
   "-bufsize", "440M",
   "-preset", "slow",
   "-c:a", "aac",
   "-b:a", "256k",
   "-ac", "2",
   "-ar", "48000",
   output_video]

/- ### Observable effects and the external world -/

/-- Observable side effects of a run, in program order.  A screenshot write
is recorded with its directory, device name, file number `n` (the file is
`DEVICE_screenshot_N.jpg`, see `screenshotFileName`) and the resolution the
frame was resized to. -/
inductive Event where
  | mkdirOut (dir : String)
  | mkdirScreens (dir : String)
  | spawn (cmd : List String)
  | writeFile (dir device : String) (n : ℕ) (resolution : ℕ × ℕ)
  | warn (captured : ℕ)
deriving DecidableEq

/-- Oracle for the external world: filesystem existence, probe results
(cv2 frame rate and frame count; ffprobe-parsed audio duration, where `none`
means the JSON parse of the ffprobe output raises), ffmpeg exit status, and
per-frame decode success of `cap.read()`. -/
structure Env where
  pathExists : String → Bool
  videoFps : String → ℚ
  videoFrames : String → ℕ
  audioDuration : String → Option ℚ
  encodeOk : List String → Bool
  decodeOk : String → ℤ → Bool

/- ### Path construction (preview_builder.py lines 40, 50, 122) -/

/-- Source line 40: output_dir joined with DEVICE_screenshots. -/
def screenshotsDirName (output device : String) : String :=
  output ++ "/" ++ device ++ "_screenshots"

/-- Source line 50: output_dir joined with DEVICE_preview.mp4. -/
def previewFileName (output device : String) : String :=
  output ++ "/" ++ device ++ "_preview.mp4"

/-- Source line 122: output_dir joined with DEVICE_screenshot_N.jpg. -/
def screenshotFileName (dir device : String) (n : ℕ) : String :=
  dir ++ "/" ++ device ++ "_screenshot_" ++ toString n ++ ".jpg"

/-- File-write events for the captured screenshots, numbered by the capture
counter (source lines 122-123); every write uses the device screenshot
resolution (source line 121). -/
def captureEventsOf (dir device : String) (res : ℕ × ℕ) (files : List (ℤ × ℕ)) : List Event :=
  files.map (fun pr => Event.writeFile dir device pr.2 res)

/-- The (frame position, file number) pairs captured for a video: the
capture loop over the `screenshot_count` sampled positions, with the
decode oracle of the video. -/
def capturedFiles (env : Env) (video_path : String) : List (ℤ × ℕ) :=
  captureLoop (env.decodeOk video_path)
    (frame_positions (env.videoFrames video_path) screenshot_count) 0

/-- Source lines 100-131 (`_capture_screenshots`): re-probe the frame count,
sample `screenshot_count` positions, capture what decodes, and append a
count-mismatch warning when the number captured differs from
`screenshot_count` (line 130).  This function has no failure path: it
always returns normally. -/
def capture_screenshots (env : Env) (video_path dir device : String) : List Event :=
  captureEventsOf dir device (screenshotResolution device) (capturedFiles env video_path) ++
    (if (capturedFiles env video_path).length ≠ screenshot_count then
      [Event.warn (capturedFiles env video_path).length]
    else [])

/- ### process_video (preview_builder.py lines 38-90) -/

/-- Source lines 38-90 (`process_video`): create the screenshots directory
(line 41), probe the video (lines 92-98: cv2 frame count and fps; the
division `frame_count / fps` raises `ZeroDivisionError` when fps is 0),
spawn ffprobe for the audio duration (lines 24-36; a failed parse raises),
compute both loop counts (lines 56-57, each raising `ZeroDivisionError` on a
zero duration), spawn ffmpeg (line 86; `check=True` raises
`CalledProcessError` on a nonzero exit), then capture screenshots (line 90,
never fails). -/
def process_video (env : Env) (input_video audio_file device_type output : String) :
    List Event × Except String Unit :=
  let screenshots_dir := screenshotsDirName output device_type
  let ev0 : List Event := [Event.mkdirScreens screenshots_dir]
  let wh := previewResolution device_type
  let output_video := previewFileName output device_type
  if env.videoFps input_video = 0 then (ev0, .error "ZeroDivisionError")
  else
    let video_duration := (env.videoFrames input_video : ℚ) / env.videoFps input_video
    let ev1 := ev0 ++ [Event.spawn (ffprobe_cmd audio_file)]
    match env.audioDuration audio_file with
    | none => (ev1, .error "ProbeError")
    | some audio_duration =>
      match processLoopCounts video_duration audio_duration with
      | .error e => (ev1, .error e)
      | .ok (video_loops, audio_loops) =>
        let cmd := ffmpeg_cmd video_loops audio_loops input_video audio_file
          wh.1 wh.2 output_video
        let ev2 := ev1 ++ [Event.spawn cmd]
        if env.encodeOk cmd then
          (ev2 ++ capture_screenshots env input_video screenshots_dir device_type, .ok ())
        else (ev2, .error "CalledProcessError")

/- ### Input validation (preview_builder.py lines 142-163) -/

/-- Drop everything up to and including the last `/` — the basename step of
`os.path.splitext` on POSIX. -/
def afterLastSep (l : List Char) : List Char :=
  l.foldl (fun acc c => if c = '/' then [] else acc ++ [c]) []

/-- Split a character list at its last `.`: returns (prefix before the last
dot, suffix from the last dot on); when there is no dot the suffix is empty
and the prefix is the whole list. -/
def splitAtLastDot : List Char → List Char × List Char
  | [] => ([], [])
  | c :: rest =>
    let pr := splitAtLastDot rest
    if pr.2.isEmpty then
      if c = '.' then ([], c :: rest) else (c :: pr.1, [])
    else (c :: pr.1, pr.2)

/-- Embedding of `os.path.splitext(s)[1]` (source lines 153 and 160): the extension is
the suffix from the last dot of the basename, and is empty when every
character of the basename before that dot is itself a dot. -/
def splitextExt (s : String) : String :=
  let b := afterLastSep s.toList
  let pr := splitAtLastDot b
  if pr.1.any (fun c => c ≠ '.') then String.mk pr.2 else ""

/-- Source line 143. -/
def supported_video_extensions : List String := [".mov", ".m4v", ".mp4"]

/-- Source line 144. -/
def supported_audio_extensions : List String := [".mp3", ".wav", ".aac"]

/-- Source lines 151-163 for one file of the validation loop: when the path
equals the iPhone or iPad argument its lowered extension must be a supported
video extension, and when it equals the audio argument its lowered extension
must be a supported audio extension. -/
def fileChecksOk (iphone ipad audio f : String) : Bool :=
  (!(f == iphone || f == ipad) ||
     supported_video_extensions.contains (strLower (splitextExt f))) &&
  (!(f == audio) ||
     supported_audio_extensions.contains (strLower (splitextExt f)))

/-- Source lines 146-163: the validation loop over `[iphone, ipad, audio]` —
every file must exist and pass its extension checks; any failure makes
`main` return 1 before anything else happens. -/
def validateInputs (exists_ : String → Bool) (iphone ipad audio : String) : Bool :=
  (exists_ iphone && fileChecksOk iphone ipad audio iphone) &&
  (exists_ ipad && fileChecksOk iphone ipad audio ipad) &&
  (exists_ audio && fileChecksOk iphone ipad audio audio)

/- ### main (preview_builder.py lines 133-184) -/

/-- Source lines 133-184 (`main`): validate all inputs up front (returning
exit code 1 with no side effects on failure), create the output directory
(line 22, inside the `PreviewBuilder` constructor invoked at line 165),
process the iPhone device, then the iPad device.  An exception escaping
`process_video` is uncaught, so it aborts the interpreter with exit code 1 —
a failure on the first device means the second is never started. -/
def mainRun (env : Env) (iphone ipad audio output : String) : List Event × ℕ :=
  if validateInputs env.pathExists iphone ipad audio then
    let r1 := process_video env iphone audio "iphone" output
    match r1.2 with
    | .error _ => (Event.mkdirOut output :: r1.1, 1)
    | .ok _ =>
      let r2 := process_video env ipad audio "ipad" output
      (Event.mkdirOut output :: (r1.1 ++ r2.1),
       match r2.2 with
       | .error _ => 1
       | .ok _ => 0)
  else ([], 1)

/- ### Concrete environments used by closed theorems -/

/-- The end-to-end scenario of the spec: a 120-frame source video at 24 fps
(5 seconds), a 3-second audio file, every external step succeeding. -/
def demoEnv : Env :=
  { pathExists := fun _ => true
    videoFps := fun _ => 24
    videoFrames := fun _ => 120
    audioDuration := fun _ => some 3
    encodeOk := fun _ => true
    decodeOk := fun _ _ => true }

/-- Variant of `demoEnv` with an (absurd, unguarded) negative probed audio duration. -/
def negAudioEnv : Env := { demoEnv with audioDuration := fun _ => some (-3) }

/-- Variant of `demoEnv` whose ffmpeg invocations all exit nonzero. -/
def encodeFailEnv : Env := { demoEnv with encodeOk := fun _ => false }

/-- Variant of `demoEnv` whose decoder fails exactly at frame position 0. -/
def decodeFailEnv : Env := { demoEnv with decodeOk := fun _ p => p != 0 }

/-- Variant of `demoEnv` with no file existing. -/
def noFileEnv : Env := { demoEnv with pathExists := fun _ => false }

/- ### Bridge lemmas: the executable floor/ceil agree with the Mathlib ones -/

theorem ratFloor_eq (q : ℚ) : Rat.floor q = ⌊q⌋ := by
  rw [Rat.floor_def', ← Rat.floor_def]

theorem ratCeil_eq (q : ℚ) : ratCeil q = ⌈q⌉ := by
  rw [ratCeil, ratFloor_eq, Int.floor_neg, neg_neg]

theorem ratTrunc_eq_floor (q : ℚ) (h : 0 ≤ q) : ratTrunc q = ⌊q⌋ := by
  rw [ratTrunc, if_pos h, ratFloor_eq]

/- ### Loop-planner evaluation lemmas -/

theorem plan_ne (t s : ℚ) (hs : ¬s = 0) :
    plan t s = .ok (max 1 (ratCeil (t / s))) := by
  unfold plan
  rw [if_neg hs]

theorem processLoopCounts_eval (vd ad : ℚ) (h1 : ¬vd = 0) (h2 : ¬ad = 0) :
    processLoopCounts vd ad =
      .ok (max 1 (ratCeil (required_duration / vd)),
           max 1 (ratCeil (required_duration / ad))) := by
  unfold processLoopCounts
  rw [plan_ne _ _ h1, plan_ne _ _ h2]
  rfl

/- ### Frame-sampling lemmas -/

theorem frame_positions_floor (T N : ℕ) (hT : 1 ≤ T) (hN : 1 ≤ N) :
    frame_positions T N =
      (List.range N).map
        (fun i : ℕ => ⌊((i : ℚ) * ((T : ℚ) - 1)) / ((N : ℚ) - 1)⌋) := by
  have hstop : (0 : ℚ) ≤ (T : ℚ) - 1 := by
    have h1T : (1 : ℚ) ≤ (T : ℚ) := by exact_mod_cast hT
    linarith
  have hden : (0 : ℚ) ≤ (N : ℚ) - 1 := by
    have h1N : (1 : ℚ) ≤ (N : ℚ) := by exact_mod_cast hN
    linarith
  have key : ∀ i : ℕ,
      ratTrunc ((i : ℚ) * (((T : ℚ) - 1) / ((N : ℚ) - 1))) =
        ⌊((i : ℚ) * ((T : ℚ) - 1)) / ((N : ℚ) - 1)⌋ := by
    intro i
    rw [mul_div_assoc]
    exact ratTrunc_eq_floor _
      (mul_nonneg (Nat.cast_nonneg i) (div_nonneg hstop hden))
  simp only [frame_positions, linspace, List.map_map]
  exact List.map_congr_left (fun i _ => key i)

theorem frame_positions_one (T : ℕ) : frame_positions T 1 = [0] := by
  have h0 : ratTrunc 0 = 0 := by
    rw [ratTrunc, if_pos le_rfl, ratFloor_eq]
    exact Int.floor_zero
  simp only [frame_positions, linspace]
  rw [show List.range 1 = [0] from by decide]
  simp [h0]

theorem frame_positions_100_6 : frame_positions 100 6 = [0, 19, 39, 59, 79, 99] := by
  rw [frame_positions_floor 100 6 (by norm_num) (by norm_num),
    show List.range 6 = [0, 1, 2, 3, 4, 5] from by decide]
  simp only [List.map_cons, List.map_nil]
  norm_num [Int.floor_eq_iff]

theorem frame_positions_120_6 : frame_positions 120 6 = [0, 23, 47, 71, 95, 119] := by
  rw [frame_positions_floor 120 6 (by norm_num) (by norm_num),
    show List.range 6 = [0, 1, 2, 3, 4, 5] from by decide]
  simp only [List.map_cons, List.map_nil]
  norm_num [Int.floor_eq_iff]

/- ### Capture-loop lemmas -/

theorem captureLoop_map_fst (ok : ℤ → Bool) (ps : List ℤ) :
    ∀ c, (captureLoop ok ps c).map Prod.fst = ps.filter ok := by
  induction ps with
  | nil => intro c; rfl
  | cons p ps ih =>
    intro c
    by_cases h : ok p
    · simp [captureLoop, h, List.filter_cons, ih]
    · simp [captureLoop, h, List.filter_cons, ih]

theorem captureLoop_map_snd (ok : ℤ → Bool) (ps : List ℤ) :
    ∀ c, (captureLoop ok ps c).map Prod.snd =
      List.range' (c + 1) ((ps.filter ok).length) := by
  induction ps with
  | nil => intro c; rfl
  | cons p ps ih =>
    intro c
    by_cases h : ok p
    · simp only [captureLoop, h, if_true, List.map_cons, List.filter_cons, ih]
      simp [List.range'_succ, Nat.add_assoc, Nat.add_comm 1 1]
    · simp [captureLoop, h, List.filter_cons, ih]

theorem captureLoop_length (ok : ℤ → Bool) (ps : List ℤ) (c : ℕ) :
    (captureLoop ok ps c).length = (ps.filter ok).length := by
  have h := congrArg List.length (captureLoop_map_fst ok ps c)
  simpa using h

/- ### Run-shape lemmas for process_video -/

theorem process_video_run (env : Env) (iv af d o : String)
    (hfps : ¬env.videoFps iv = 0)
    (hvd : ¬(env.videoFrames iv : ℚ) / env.videoFps iv = 0)
    (a : ℚ) (ha : env.audioDuration af = some a) (ha0 : ¬a = 0)
    (henc : ∀ c, env.encodeOk c = true) :
    process_video env iv af d o =
      ([Event.mkdirScreens (screenshotsDirName o d),
        Event.spawn (ffprobe_cmd af),
        Event.spawn (ffmpeg_cmd
          (max 1 (ratCeil (required_duration / ((env.videoFrames iv : ℚ) / env.videoFps iv))))
          (max 1 (ratCeil (required_duration / a)))
          iv af (previewResolution d).1 (previewResolution d).2
          (previewFileName o d))] ++
        capture_screenshots env iv (screenshotsDirName o d) d,
       .ok ()) := by
  simp only [process_video, ha, processLoopCounts_eval _ _ hvd ha0, henc, hfps,
    if_false, if_true, ite_false, ite_true]
  simp

theorem process_video_encode_fail (env : Env) (iv af d o : String)
    (hfps : ¬env.videoFps iv = 0)
    (hvd : ¬(env.videoFrames iv : ℚ) / env.videoFps iv = 0)
    (a : ℚ) (ha : env.audioDuration af = some a) (ha0 : ¬a = 0)
    (henc : ∀ c, env.encodeOk c = false) :
    process_video env iv af d o =
      ([Event.mkdirScreens (screenshotsDirName o d),
        Event.spawn (ffprobe_cmd af),
        Event.spawn (ffmpeg_cmd
          (max 1 (ratCeil (required_duration / ((env.videoFrames iv : ℚ) / env.videoFps iv))))
          (max 1 (ratCeil (required_duration / a)))
          iv af (previewResolution d).1 (previewResolution d).2
          (previewFileName o d))],
       .error "CalledProcessError") := by
  simp only [process_video, ha, processLoopCounts_eval _ _ hvd ha0, henc, hfps,
    if_false, if_true, ite_false, ite_true]
  simp

/- ### Resolution-table evaluation lemmas -/

theorem previewResolution_iphone : previewResolution "iphone" = (886, 1920) := by
  unfold previewResolution
  rw [if_pos (show strLower "iphone" = "iphone" from by decide)]
  rfl

theorem screenshotResolution_iphone : screenshotResolution "iphone" = (1320, 2868) := by
  unfold screenshotResolution
  rw [if_pos (show strLower "iphone" = "iphone" from by decide)]
  rfl

/- ### Claim theorems -/

/-- C1: for every positive target duration and positive source duration the
loop planner returns `loop_count = max(1, ceil(target / source))`, this
count satisfies `loop_count * source ≥ target`, and the same formula is
applied independently to the video duration (line 56) and the audio duration
(line 57) via `processLoopCounts` (`required_duration = 30`). -/
theorem c1_loop_planner (t s vd ad : ℚ) (ht : 0 < t) (hs : 0 < s)
    (hvd : 0 < vd) (had : 0 < ad) :
    plan t s = .ok (max 1 ⌈t / s⌉) ∧
    t ≤ ((max 1 ⌈t / s⌉ : ℤ) : ℚ) * s ∧
    processLoopCounts vd ad =
      .ok (max 1 ⌈required_duration / vd⌉, max 1 ⌈required_duration / ad⌉) := by
  refine ⟨?_, ?_, ?_⟩
  · rw [plan_ne t s hs.ne', ratCeil_eq]
  · have h1 : t / s ≤ ((⌈t / s⌉ : ℤ) : ℚ) := Int.le_ceil _
    have h2 : ((⌈t / s⌉ : ℤ) : ℚ) ≤ ((max 1 ⌈t / s⌉ : ℤ) : ℚ) := by
      exact_mod_cast le_max_right 1 ⌈t / s⌉
    calc t = t / s * s := (div_mul_cancel₀ t hs.ne').symm
      _ ≤ ((max 1 ⌈t / s⌉ : ℤ) : ℚ) * s :=
          mul_le_mul_of_nonneg_right (h1.trans h2) hs.le
  · rw [processLoopCounts_eval vd ad hvd.ne' had.ne', ratCeil_eq, ratCeil_eq]

/-- Witness for C1 at target 30 and source duration 7 (probe durations
5 and 3): the planner yields `max 1 ⌈30/7⌉`. -/
theorem c1_loop_planner_witness :
    plan 30 7 = .ok (max 1 ⌈(30 : ℚ) / 7⌉) :=
  (c1_loop_planner 30 7 5 3 (by norm_num) (by norm_num) (by norm_num) (by norm_num)).1

/-- C2 counterexample: at `total_frames = 100, N = 6` the formula of the claim
gives `round(1 * 99 / 5) = round(19.8) = 20` as the second index, but the
program (numpy `linspace` with `dtype=int`, which truncates) selects 19, so
the sampled indices are not the rounded values. -/
theorem c2_round_counterexample :
    frame_positions 100 6 ≠
      (List.range 6).map
        (fun i : ℕ => round (((i : ℚ) * ((100 : ℚ) - 1)) / ((6 : ℚ) - 1))) := by
  intro h
  rw [frame_positions_100_6, show List.range 6 = [0, 1, 2, 3, 4, 5] from by decide] at h
  simp only [List.map_cons, List.map_nil, List.cons.injEq, and_assoc] at h
  have h1 : (19 : ℤ) = round ((((1 : ℕ) : ℚ) * ((100 : ℚ) - 1)) / ((6 : ℚ) - 1)) := h.2.1
  have h20 : round ((((1 : ℕ) : ℚ) * ((100 : ℚ) - 1)) / ((6 : ℚ) - 1)) = 20 := by
    rw [show (((1 : ℕ) : ℚ) * ((100 : ℚ) - 1)) / ((6 : ℚ) - 1) = 99 / 5 by norm_num,
      round_eq, show (99 : ℚ) / 5 + 1 / 2 = 203 / 10 by norm_num, Int.floor_eq_iff]
    norm_num
  rw [h20] at h1
  norm_num at h1

/-- C2 (amended): for `total_frames ≥ 1` and `N ≥ 1` the sampler selects
exactly the `N` indices `floor(i * (total_frames - 1) / (N - 1))` — the
evenly spaced linspace values truncated to integers — inclusive of the first
frame 0 and (for `N ≥ 2`) the last frame `total_frames - 1`; for `N = 1` the
single selected index is 0. -/
theorem c2_sampler_truncates (T N : ℕ) (hT : 1 ≤ T) (hN : 1 ≤ N) :
    frame_positions T N =
      (List.range N).map
        (fun i : ℕ => ⌊((i : ℚ) * ((T : ℚ) - 1)) / ((N : ℚ) - 1)⌋) ∧
    (frame_positions T N)[0]? = some 0 ∧
    (2 ≤ N → (frame_positions T N)[N - 1]? = some ((T : ℤ) - 1)) ∧
    frame_positions T 1 = [0] := by
  have hmain := frame_positions_floor T N hT hN
  refine ⟨hmain, ?_, ?_, frame_positions_one T⟩
  · rw [hmain, List.getElem?_map,
      List.getElem?_range (Nat.lt_of_lt_of_le Nat.zero_lt_one hN)]
    simp
  · intro hN2
    rw [hmain, List.getElem?_map,
      List.getElem?_range (Nat.sub_lt (Nat.lt_of_lt_of_le Nat.zero_lt_one hN) Nat.zero_lt_one)]
    have hcast : ((N - 1 : ℕ) : ℚ) = (N : ℚ) - 1 := by
      push_cast [hN]
      ring
    have hden0 : (N : ℚ) - 1 ≠ 0 := by
      have h2N : (2 : ℚ) ≤ (N : ℚ) := by exact_mod_cast hN2
      intro hc
      rw [sub_eq_zero] at hc
      rw [hc] at h2N
      norm_num at h2N
    have hval : (((N - 1 : ℕ) : ℚ) * ((T : ℚ) - 1)) / ((N : ℚ) - 1) = (T : ℚ) - 1 := by
      rw [hcast, mul_comm, mul_div_assoc, div_self hden0, mul_one]
    rw [Option.map_some']
    congr 1
    rw [hval, show (T : ℚ) - 1 = (((T : ℤ) - 1 : ℤ) : ℚ) by push_cast; ring]
    exact Int.floor_intCast _

/-- Witness for the amended C2 theorem at `total_frames = 100, N = 6`: the
first sampled index is frame 0. -/
theorem c2_sampler_truncates_witness :
    (frame_positions 100 6)[0]? = some 0 :=
  (c2_sampler_truncates 100 6 (by norm_num) (by norm_num)).2.1

/-- C3: the concrete values given by the spec all hold on the code: sampling 6 from 100
frames gives `[0,19,39,59,79,99]` and `N = 1` gives `[0]`; for the
end-to-end scenario (120-frame 24 fps video = 5 s, 3 s audio, target 30 s)
the video loop count is 6, the audio loop count is 10, the sampled indices
are `[0,23,47,71,95,119]`, and the single device job runs exactly: mkdir,
ffprobe, one ffmpeg invocation with loop counts 6 and 10 at the iPhone
resolution, and six screenshot writes. -/
theorem c3_end_to_end :
    frame_positions 100 6 = [0, 19, 39, 59, 79, 99] ∧
    frame_positions 100 1 = [0] ∧
    plan required_duration ((120 : ℚ) / 24) = .ok 6 ∧
    plan required_duration 3 = .ok 10 ∧
    frame_positions 120 6 = [0, 23, 47, 71, 95, 119] ∧
    process_video demoEnv "video.mp4" "audio.mp3" "iphone" "output" =
      ([Event.mkdirScreens (screenshotsDirName "output" "iphone"),
        Event.spawn (ffprobe_cmd "audio.mp3"),
        Event.spawn (ffmpeg_cmd 6 10 "video.mp4" "audio.mp3" 886 1920
          (previewFileName "output" "iphone"))] ++
       [Event.writeFile (screenshotsDirName "output" "iphone") "iphone" 1 (1320, 2868),
        Event.writeFile (screenshotsDirName "output" "iphone") "iphone" 2 (1320, 2868),
        Event.writeFile (screenshotsDirName "output" "iphone") "iphone" 3 (1320, 2868),
        Event.writeFile (screenshotsDirName "output" "iphone") "iphone" 4 (1320, 2868),
        Event.writeFile (screenshotsDirName "output" "iphone") "iphone" 5 (1320, 2868),
        Event.writeFile (screenshotsDirName "output" "iphone") "iphone" 6 (1320, 2868)],
       .ok ()) := by
  have hp6 : plan required_duration ((120 : ℚ) / 24) = .ok 6 := by
    rw [plan_ne _ _ (by norm_num),
      show required_duration / ((120 : ℚ) / 24) = ((6 : ℤ) : ℚ) from by
        norm_num [required_duration],
      ratCeil_eq, Int.ceil_intCast, max_eq_right (by norm_num : (1 : ℤ) ≤ 6)]
  have hp10 : plan required_duration 3 = .ok 10 := by
    rw [plan_ne _ _ (by norm_num),
      show required_duration / (3 : ℚ) = ((10 : ℤ) : ℚ) from by
        norm_num [required_duration],
      ratCeil_eq, Int.ceil_intCast, max_eq_right (by norm_num : (1 : ℤ) ≤ 10)]
  refine ⟨frame_positions_100_6, frame_positions_one 100, hp6, hp10,
    frame_positions_120_6, ?_⟩
  rw [process_video_run demoEnv "video.mp4" "audio.mp3" "iphone" "output"
    (by norm_num [demoEnv]) (by norm_num [demoEnv]) 3 rfl (by norm_num) (fun _ => rfl)]
  have h6 : max 1 (ratCeil (required_duration /
      ((demoEnv.videoFrames "video.mp4" : ℚ) / demoEnv.videoFps "video.mp4"))) = 6 := by
    rw [show required_duration /
          ((demoEnv.videoFrames "video.mp4" : ℚ) / demoEnv.videoFps "video.mp4") =
          ((6 : ℤ) : ℚ) from by norm_num [demoEnv, required_duration],
      ratCeil_eq, Int.ceil_intCast]
    exact max_eq_right (by norm_num)
  have h10 : max 1 (ratCeil (required_duration / (3 : ℚ))) = 10 := by
    rw [show required_duration / (3 : ℚ) = ((10 : ℤ) : ℚ) from by
        norm_num [required_duration],
      ratCeil_eq, Int.ceil_intCast]
    exact max_eq_right (by norm_num)
  have hcf : capturedFiles demoEnv "video.mp4" =
      [(0, 1), (23, 2), (47, 3), (71, 4), (95, 5), (119, 6)] := by
    unfold capturedFiles
    rw [show demoEnv.videoFrames "video.mp4" = 120 from rfl,
      show screenshot_count = 6 from rfl, frame_positions_120_6]
    simp [captureLoop, demoEnv]
  have hcap : capture_screenshots demoEnv "video.mp4"
      (screenshotsDirName "output" "iphone") "iphone" =
      [Event.writeFile (screenshotsDirName "output" "iphone") "iphone" 1 (1320, 2868),
       Event.writeFile (screenshotsDirName "output" "iphone") "iphone" 2 (1320, 2868),
       Event.writeFile (screenshotsDirName "output" "iphone") "iphone" 3 (1320, 2868),
       Event.writeFile (screenshotsDirName "output" "iphone") "iphone" 4 (1320, 2868),
       Event.writeFile (screenshotsDirName "output" "iphone") "iphone" 5 (1320, 2868),
       Event.writeFile (screenshotsDirName "output" "iphone") "iphone" 6 (1320, 2868)] := by
    unfold capture_screenshots
    rw [hcf, screenshotResolution_iphone]
    simp [captureEventsOf, screenshot_count]
  rw [h6, h10, hcap, previewResolution_iphone]

/-- C4 (the claim describes intended behavior the code does not implement):
there is no `InvalidInputError` guard for non-positive source durations —
at duration `-3` the planner silently returns loop count 1 and the job
proceeds to spawn ffmpeg, and at duration `0` the division raises an
uncaught `ZeroDivisionError`, not an `InvalidInputError`. -/
theorem c4_missing_nonpositive_guard :
    plan 30 (-3) = .ok 1 ∧
    plan 30 0 = .error "ZeroDivisionError" ∧
    (process_video negAudioEnv "video.mp4" "audio.mp3" "iphone" "output").2 = .ok () ∧
    Event.spawn (ffmpeg_cmd 6 1 "video.mp4" "audio.mp3" 886 1920
        (previewFileName "output" "iphone"))
      ∈ (process_video negAudioEnv "video.mp4" "audio.mp3" "iphone" "output").1 := by
  have hneg : plan 30 (-3) = .ok 1 := by
    rw [plan_ne _ _ (by norm_num),
      show (30 : ℚ) / (-3) = ((-10 : ℤ) : ℚ) from by norm_num,
      ratCeil_eq, Int.ceil_intCast, max_eq_left (by norm_num : (-10 : ℤ) ≤ 1)]
  have hzero : plan 30 0 = .error "ZeroDivisionError" := by
    unfold plan
    rw [if_pos rfl]
  have hrun := process_video_run negAudioEnv "video.mp4" "audio.mp3" "iphone" "output"
    (by norm_num [negAudioEnv, demoEnv]) (by norm_num [negAudioEnv, demoEnv])
    (-3) rfl (by norm_num) (fun _ => rfl)
  have h6 : max 1 (ratCeil (required_duration /
      ((negAudioEnv.videoFrames "video.mp4" : ℚ) / negAudioEnv.videoFps "video.mp4"))) = 6 := by
    rw [show required_duration /
          ((negAudioEnv.videoFrames "video.mp4" : ℚ) / negAudioEnv.videoFps "video.mp4") =
          ((6 : ℤ) : ℚ) from by norm_num [negAudioEnv, demoEnv, required_duration],
      ratCeil_eq, Int.ceil_intCast]
    exact max_eq_right (by norm_num)
  have h1 : max 1 (ratCeil (required_duration / ((-3) : ℚ))) = 1 := by
    rw [show required_duration / ((-3) : ℚ) = ((-10 : ℤ) : ℚ) from by
        norm_num [required_duration],
      ratCeil_eq, Int.ceil_intCast, max_eq_left (by norm_num : (-10 : ℤ) ≤ 1)]
  refine ⟨hneg, hzero, ?_, ?_⟩
  · rw [hrun]
  · rw [hrun, h6, h1, previewResolution_iphone]
    simp

/-- C5: the encoder invocation contains, in order: the looped video input,
the looped audio input, the scale-then-pad filter at the exact profile
dimensions with the pad anchored at origin, the hard `-t 30` duration cap,
and the fixed codec/bitrate block; it starts with `ffmpeg -y` (overwrite any
pre-existing output rather than erroring), the block from position 14 on is
input-independent (the same string literals for every input), and the final
argument is the output path. -/
theorem c5_encoder_invocation (vl al : ℤ) (iv af : String) (w h : ℕ) (out : String) :
    (ffmpeg_cmd vl al iv af w h out).take 2 = ["ffmpeg", "-y"] ∧
    List.Sublist
      ["-stream_loop", toString vl, "-i", iv,
       "-stream_loop", toString al, "-i", af,
       "-vf", vfFilter w h, "-t", "30",
       "-c:v", "libx264", "-b:v", "11M", "-c:a", "aac", "-b:a", "256k", out]
      (ffmpeg_cmd vl al iv af w h out) ∧
    ((ffmpeg_cmd vl al iv af w h out).drop 14).take 24 =
      ["-r", "30", "-c:v", "libx264", "-profile:v", "high", "-level:v", "4.0",
       "-b:v", "11M", "-maxrate", "220M", "-bufsize", "440M", "-preset", "slow",
       "-c:a", "aac", "-b:a", "256k", "-ac", "2", "-ar", "48000"] ∧
    (ffmpeg_cmd vl al iv af w h out).getLast? = some out := by
  refine ⟨rfl, ?_, rfl, rfl⟩
  unfold ffmpeg_cmd
  apply List.Sublist.cons
  apply List.Sublist.cons
  repeat apply List.Sublist.cons₂
  apply List.Sublist.cons
  apply List.Sublist.cons
  repeat apply List.Sublist.cons₂
  apply List.Sublist.cons
  apply List.Sublist.cons
  apply List.Sublist.cons
  apply List.Sublist.cons
  repeat apply List.Sublist.cons₂
  apply List.Sublist.cons
  apply List.Sublist.cons
  apply List.Sublist.cons
  apply List.Sublist.cons
  apply List.Sublist.cons
  apply List.Sublist.cons
  repeat apply List.Sublist.cons₂
  apply List.Sublist.cons
  apply List.Sublist.cons
  apply List.Sublist.cons
  apply List.Sublist.cons
  repeat apply List.Sublist.cons₂
  exact List.Sublist.slnil

/-- C6: frame decode failures are non-fatal: every failed sampled index is
skipped and every successfully decoded index is kept in order (the captured
positions are exactly the filter of the sampled positions by the decode
oracle), a shortfall puts a count-mismatch warning event in the job trace,
and the device job still returns success. -/
theorem c6_decode_failure_policy (env : Env) (iv af d o : String)
    (hfps : ¬env.videoFps iv = 0)
    (hvd : ¬(env.videoFrames iv : ℚ) / env.videoFps iv = 0)
    (a : ℚ) (ha : env.audioDuration af = some a) (ha0 : ¬a = 0)
    (henc : ∀ c, env.encodeOk c = true) :
    (process_video env iv af d o).2 = .ok () ∧
    (capturedFiles env iv).map Prod.fst =
      (frame_positions (env.videoFrames iv) screenshot_count).filter (env.decodeOk iv) ∧
    ((capturedFiles env iv).length ≠ screenshot_count →
      Event.warn (capturedFiles env iv).length ∈ (process_video env iv af d o).1) := by
  have hrun := process_video_run env iv af d o hfps hvd a ha ha0 henc
  refine ⟨by rw [hrun], captureLoop_map_fst _ _ 0, ?_⟩
  intro hne
  rw [hrun]
  apply List.mem_append.mpr
  right
  unfold capture_screenshots
  apply List.mem_append.mpr
  right
  rw [if_pos hne]
  exact List.mem_singleton_self _

/-- Witness for C6: with a decoder that fails exactly at frame 0, the job
still succeeds and its trace contains the warning that only 5 of 6
screenshots were captured. -/
theorem c6_decode_failure_policy_witness :
    (process_video decodeFailEnv "video.mp4" "audio.mp3" "iphone" "output").2 = .ok () ∧
    Event.warn 5 ∈ (process_video decodeFailEnv "video.mp4" "audio.mp3" "iphone" "output").1 := by
  have h := c6_decode_failure_policy decodeFailEnv "video.mp4" "audio.mp3" "iphone" "output"
    (by norm_num [decodeFailEnv, demoEnv]) (by norm_num [decodeFailEnv, demoEnv])
    3 rfl (by norm_num) (fun _ => rfl)
  have hcf : capturedFiles decodeFailEnv "video.mp4" =
      [(23, 1), (47, 2), (71, 3), (95, 4), (119, 5)] := by
    unfold capturedFiles
    rw [show decodeFailEnv.videoFrames "video.mp4" = 120 from rfl,
      show screenshot_count = 6 from rfl, frame_positions_120_6]
    decide
  have hl : (capturedFiles decodeFailEnv "video.mp4").length ≠ screenshot_count := by
    rw [hcf]
    decide
  have h2 := h.2.2 hl
  rw [hcf] at h2
  exact ⟨h.1, by simpa using h2⟩

/-- C7 counterexample: with every ffmpeg invocation failing, the encode
failure on the iPhone device is fatal (`CalledProcessError` propagates) and
the run stops with exit code 1 without ever starting the iPad device — its
screenshots directory is never created — contradicting the claim that the
batch driver still attempts the second device profile. -/
theorem c7_encode_failure_skips_second_device :
    (process_video encodeFailEnv "iphone.mp4" "audio.mp3" "iphone" "output").2 =
      .error "CalledProcessError" ∧
    (mainRun encodeFailEnv "iphone.mp4" "ipad.mp4" "audio.mp3" "output").2 = 1 ∧
    Event.mkdirScreens (screenshotsDirName "output" "ipad") ∉
      (mainRun encodeFailEnv "iphone.mp4" "ipad.mp4" "audio.mp3" "output").1 := by
  have hrun := process_video_encode_fail encodeFailEnv "iphone.mp4" "audio.mp3" "iphone" "output"
    (by norm_num [encodeFailEnv, demoEnv]) (by norm_num [encodeFailEnv, demoEnv])
    3 rfl (by norm_num) (fun _ => rfl)
  have hval : validateInputs encodeFailEnv.pathExists "iphone.mp4" "ipad.mp4" "audio.mp3"
      = true := by decide
  have hmain : mainRun encodeFailEnv "iphone.mp4" "ipad.mp4" "audio.mp3" "output" =
      (Event.mkdirOut "output" ::
        (process_video encodeFailEnv "iphone.mp4" "audio.mp3" "iphone" "output").1, 1) := by
    unfold mainRun
    rw [if_pos hval]
    simp [hrun]
  refine ⟨by rw [hrun], by rw [hmain], ?_⟩
  rw [hmain, hrun]
  decide

/-- C7 (amended): a fatal error (probe or encode failure) while processing
the first device profile aborts the run with exit code 1: the trace is
exactly the output-directory creation plus the events of the first device, and
the second device profile is never attempted. -/
theorem c7_first_device_fatal_aborts (env : Env) (iphone ipad audio output : String)
    (hval : validateInputs env.pathExists iphone ipad audio = true)
    (m : String)
    (hfail : (process_video env iphone audio "iphone" output).2 = .error m) :
    mainRun env iphone ipad audio output =
      (Event.mkdirOut output :: (process_video env iphone audio "iphone" output).1, 1) := by
  unfold mainRun
  rw [if_pos hval]
  simp [hfail]

/-- Witness for the amended C7 theorem: the all-encodes-fail environment. -/
theorem c7_first_device_fatal_aborts_witness :
    mainRun encodeFailEnv "iphone.mp4" "ipad.mp4" "audio.mp3" "output" =
      (Event.mkdirOut "output" ::
        (process_video encodeFailEnv "iphone.mp4" "audio.mp3" "iphone" "output").1, 1) :=
  c7_first_device_fatal_aborts encodeFailEnv "iphone.mp4" "ipad.mp4" "audio.mp3" "output"
    (by decide) "CalledProcessError"
    (by rw [process_video_encode_fail encodeFailEnv "iphone.mp4" "audio.mp3" "iphone" "output"
        (by norm_num [encodeFailEnv, demoEnv]) (by norm_num [encodeFailEnv, demoEnv])
        3 rfl (by norm_num) (fun _ => rfl)])

/-- C8: if any of the three input paths does not exist, or a video input
extension (lowercased) is outside .mov/.m4v/.mp4, or the audio input
extension (lowercased) is outside .mp3/.wav/.aac, the run returns exit
code 1 with an empty event trace: no directory is created, no file written,
and no external process spawned. -/
theorem c8_validation_rejects (env : Env) (iphone ipad audio output : String)
    (h : env.pathExists iphone = false ∨ env.pathExists ipad = false ∨
         env.pathExists audio = false ∨
         supported_video_extensions.contains (strLower (splitextExt iphone)) = false ∨
         supported_video_extensions.contains (strLower (splitextExt ipad)) = false ∨
         supported_audio_extensions.contains (strLower (splitextExt audio)) = false) :
    mainRun env iphone ipad audio output = ([], 1) := by
  have hv : validateInputs env.pathExists iphone ipad audio = false := by
    unfold validateInputs fileChecksOk
    rcases h with h | h | h | h | h | h
    · simp [h]
    · simp [h]
    · simp [h]
    · have h' : strLower (splitextExt iphone) ∉ supported_video_extensions := by
        simpa using h
      simp [h']
    · have h' : strLower (splitextExt ipad) ∉ supported_video_extensions := by
        simpa using h
      simp [h']
    · have h' : strLower (splitextExt audio) ∉ supported_audio_extensions := by
        simpa using h
      simp [h']
  unfold mainRun
  rw [if_neg (by simp [hv])]

/-- Witness for C8: a run in which no input file exists exits 1 with an
empty trace. -/
theorem c8_validation_rejects_witness :
    mainRun noFileEnv "a.mp4" "b.mp4" "c.mp3" "output" = ([], 1) :=
  c8_validation_rejects noFileEnv "a.mp4" "b.mp4" "c.mp3" "output" (Or.inl rfl)

/-- C9: any device string whose lowercase form is not `"iphone"` — not only
`"ipad"` — silently selects the iPad preview and screenshot resolutions, and
the device job raises no error for the unknown identifier (it completes
successfully whenever probes and encode succeed). -/
theorem c9_unknown_device_uses_ipad (d : String) (hd : strLower d ≠ "iphone") :
    previewResolution d = ipad_video_resolution ∧
    screenshotResolution d = ipad_screenshot_resolution ∧
    ∀ (env : Env) (iv af o : String) (a : ℚ),
      ¬env.videoFps iv = 0 → ¬(env.videoFrames iv : ℚ) / env.videoFps iv = 0 →
      env.audioDuration af = some a → ¬a = 0 → (∀ c, env.encodeOk c = true) →
      (process_video env iv af d o).2 = .ok () := by
  refine ⟨?_, ?_, ?_⟩
  · unfold previewResolution
    rw [if_neg hd]
  · unfold screenshotResolution
    rw [if_neg hd]
  · intro env iv af o a h1 h2 h3 h4 h5
    rw [process_video_run env iv af d o h1 h2 a h3 h4 h5]

/-- Witness for C9 at the unrecognized device string `"appletv"`. -/
theorem c9_unknown_device_uses_ipad_witness :
    previewResolution "appletv" = ipad_video_resolution :=
  (c9_unknown_device_uses_ipad "appletv" (by decide)).1

/-- C10: screenshot files are numbered consecutively `1..captured_count` in
capture order with no gaps: the file numbers of the capture loop are exactly
`[1, ..., k]` where `k` is the number of positions that decoded, so a failed
index shifts later file numbers instead of leaving a hole, and the write
events carry exactly those consecutive numbers. -/
theorem c10_consecutive_numbering (ok : ℤ → Bool) (ps : List ℤ) (dir device : String)
    (res : ℕ × ℕ) :
    (captureLoop ok ps 0).map Prod.snd = List.range' 1 ((ps.filter ok).length) ∧
    captureEventsOf dir device res (captureLoop ok ps 0) =
      (List.range' 1 ((ps.filter ok).length)).map
        (fun n => Event.writeFile dir device n res) := by
  have h := captureLoop_map_snd ok ps 0
  refine ⟨h, ?_⟩
  unfold captureEventsOf
  rw [show (fun pr : ℤ × ℕ => Event.writeFile dir device pr.2 res) =
      (fun n => Event.writeFile dir device n res) ∘ Prod.snd from rfl,
    ← List.map_map, h]
